import Mathlib

/-!
Shallow embedding of the payment-session logic of the CoverLetterGenerator
repository: `utils/payment_handler.py` (class `PaymentProcessor`) and the
payment-gate workflow in `main.py` (`main`, the `if submitted` block).

External effects (Stripe responses, Supabase write outcomes, webhook
signature verification results) are passed in as explicit outcome values;
the ledger (the Supabase `payments` table) is a list of rows threaded
through each operation.  The `stripe_data` blob column is not modelled:
every source write that touches it also writes `status`, so no ledger
write is invisible here.
-/

namespace CoverLetterGen

/-- One row of the Supabase `payments` table, with the columns the source
writes: `user_id`, `session_id`, `status`, `created_at`, `updated_at`
(absent on insert, set on update). -/
structure LedgerRow where
  user_id : String
  session_id : String
  status : String
  created_at : Nat
  updated_at : Option Nat
  deriving Repr, DecidableEq

/-- The Supabase `payments` table. -/
abbrev Ledger := List LedgerRow

/-- `table.update({status, updated_at}).eq(session_id, sid)`: overwrite the
status of every row whose `session_id` matches — keyed only on the id,
with no condition on the current status. -/
def ledgerUpdateStatus (l : Ledger) (sid newStatus : String) (now : Nat) : Ledger :=
  l.map fun r =>
    if r.session_id = sid then { r with status := newStatus, updated_at := some now } else r

/-- Outcome of `stripe.checkout.Session.retrieve`: the session with its
`payment_status`, or a raised `StripeError`. -/
inductive RetrieveResult where
  | ok (payment_status : String)
  | stripeError (msg : String)
  deriving Repr, DecidableEq

/-- `PaymentProcessor.check_payment_status`: on a successful retrieve it
updates the ledger row(s) for `session_id` with the provider-reported
`payment_status` and returns that status; on `StripeError` it prints and
returns the string `error` (no ledger access on that path).  The source
has no retry decorator on this method, so it consumes exactly one
provider outcome. -/
def check_payment_status (l : Ledger) (session_id : String) (resp : RetrieveResult)
    (now : Nat) : Ledger × String :=
  match resp with
  | .ok ps => (ledgerUpdateStatus l session_id ps now, ps)
  | .stripeError _ => (l, "error")

/-- A parsed Stripe webhook event as `verify_webhook` reads it:
`event[type]`, and from `event[data][object]` the `payment_status` and
the optional `id`. -/
structure StripeEvent where
  type : String
  payment_status : String
  object_id : Option String
  deriving Repr, DecidableEq

/-- Outcome of `stripe.Webhook.construct_event`: the parsed event, or a
raised `SignatureVerificationError`. -/
inductive ConstructEventResult where
  | ok (e : StripeEvent)
  | sigError (msg : String)
  deriving Repr, DecidableEq

/-- Python `session.get(id) or fallback`: the fallback replaces both a
missing id and an empty-string id (falsy). -/
def pyOrFallback (x : Option String) (fallback : String) : String :=
  match x with
  | none => fallback
  | some s => if s = "" then fallback else s

/-- `PaymentProcessor.verify_webhook`: a `SignatureVerificationError` from
`construct_event` is caught and the method returns `None` with no ledger
access; on a parsed event of type `checkout.session.completed` it
overwrites the row(s) matching `session[id]` with the event's
`payment_status` (and rewrites `session_id` via the `or`-fallback), then
returns the event; any other event type is returned with no ledger write.
Reading `session[id]` when the event has no id raises a `KeyError` that
the source does not catch (`Except.error`). -/
def verify_webhook (l : Ledger) (res : ConstructEventResult) (now : Nat)
    (fallbackId : String) : Except String (Ledger × Option StripeEvent) :=
  match res with
  | .sigError _ => .ok (l, none)
  | .ok e =>
    if e.type = "checkout.session.completed" then
      match e.object_id with
      | none => .error "KeyError: id"
      | some sid =>
        .ok (l.map (fun r =>
          if r.session_id = sid then
            { r with status := e.payment_status, updated_at := some now,
                     session_id := pyOrFallback e.object_id fallbackId }
          else r), some e)
    else
      .ok (l, some e)

/-- Outcome of one Supabase insert attempt inside `log_transaction`. -/
inductive LedgerWriteOutcome where
  | ok
  | failure (msg : String)
  deriving Repr, DecidableEq

/-- The row `log_transaction` inserts: status is the literal `pending`,
`updated_at` is not part of the insert. -/
def log_transaction_row (uid sid : String) (now : Nat) : LedgerRow :=
  { user_id := uid, session_id := sid, status := "pending",
    created_at := now, updated_at := none }

/-- tenacity `retry(stop=stop_after_attempt(3))` around the insert: each
attempt consumes the next outcome; after the third failed attempt the
last error propagates. -/
def log_transaction_go (l : Ledger) (uid sid : String) (now : Nat) :
    Nat → List LedgerWriteOutcome → Except String Ledger
  | _, [] => .error "no outcome supplied"
  | fuel, o :: rest =>
    match o with
    | .ok => .ok (l ++ [log_transaction_row uid sid now])
    | .failure m =>
      if fuel ≤ 1 then .error m else log_transaction_go l uid sid now (fuel - 1) rest

/-- `PaymentProcessor.log_transaction` with its 3-attempt retry. -/
def log_transaction (l : Ledger) (uid sid : String) (now : Nat)
    (outcomes : List LedgerWriteOutcome) : Except String Ledger :=
  log_transaction_go l uid sid now 3 outcomes

/-- Outcome of `stripe.checkout.Session.create`. -/
inductive CreateOutcome where
  | ok (session_id url : String)
  | stripeError (msg : String)
  deriving Repr, DecidableEq

/-- The external outcomes one attempt of `create_payment_session` can
observe: the Stripe create result, then the insert outcomes its nested
`log_transaction` retries consume. -/
structure CreateAttemptEnv where
  stripe : CreateOutcome
  ledger : List LedgerWriteOutcome
  deriving Repr, DecidableEq

/-- One attempt of the body of `create_payment_session`: a `StripeError`
is caught inside the `try` and the attempt returns `None`; on success the
nested `log_transaction` runs and its failure (a non-Stripe exception)
escapes the `except stripe.error.StripeError` clause. -/
def create_attempt (l : Ledger) (uid : String) (now : Nat) (env : CreateAttemptEnv) :
    Except String (Ledger × Option String) :=
  match env.stripe with
  | .stripeError _ => .ok (l, none)
  | .ok sid url =>
    match log_transaction l uid sid now env.ledger with
    | .ok l2 => .ok (l2, some url)
    | .error m => .error m

/-- The outer tenacity `retry(stop=stop_after_attempt(3))` on
`create_payment_session`: it fires only when an attempt raises. -/
def create_payment_session_go (l : Ledger) (uid : String) (now : Nat) :
    Nat → List CreateAttemptEnv → Except String (Ledger × Option String)
  | _, [] => .error "no attempt env supplied"
  | fuel, env :: rest =>
    match create_attempt l uid now env with
    | .ok r => .ok r
    | .error m =>
      if fuel ≤ 1 then .error m else create_payment_session_go l uid now (fuel - 1) rest

/-- `PaymentProcessor.create_payment_session` with its 3-attempt retry. -/
def create_payment_session (l : Ledger) (uid : String) (now : Nat)
    (envs : List CreateAttemptEnv) : Except String (Ledger × Option String) :=
  create_payment_session_go l uid now 3 envs

/-! ### The gate workflow of `main.py` (`if submitted` block) -/

/-- `st.session_state.payment_state`: status string (`unpaid` / `pending`
/ `paid`), the extracted checkout session id, `start_time`, and the poll
retry counter.  Time is rational, as `time.time()` is fractional. -/
structure PaymentState where
  status : String
  session_id : Option String
  start_time : ℚ
  retries : Nat
  deriving Repr, DecidableEq

/-- The `payment_state = {status: unpaid}` reset the source performs on
timeout, retry exhaustion, or an exception (later reads go through
`.get`, so the missing keys behave as absent/zero). -/
def unpaidReset : PaymentState :=
  { status := "unpaid", session_id := none, start_time := 0, retries := 0 }

/-- What one invocation of the submitted block ends with: reaching the
GPT generation step, showing the payment link, `st.rerun`, one of the
error displays, `st.stop`, or a plain `return`. -/
inductive GateAction where
  | generate
  | showPaymentLink (url : String)
  | rerunApp
  | timeoutError
  | checkFailedError
  | maxRetriesError
  | stopRun
  | returnNoOp
  deriving Repr, DecidableEq

/-- `payment_url.split("/pay/")[-1].split("#")[0]`. -/
def extract_session_id (url : String) : String :=
  (((url.splitOn "/pay/").getLastD "").splitOn "#").headD ""

/-- The external observations one invocation of the submitted block can
make: the clock, what `check_payment_status` returns in the pending
branch (or that it raises), the result of `create_payment_session`
(`none` models the exception path, including the `AttributeError` when
it returned `None`), the `payment_success` flag set by the redirect
callback, the input validations, resume parsing, whether
`payment_session_id` is in `session_state`, and what the final
pre-generation `check_payment_status` call returns. -/
structure GateEnv where
  now : ℚ
  pollRaises : Bool
  pollResult : String
  createResult : Option String
  payment_ok : Bool
  inputsValid : Bool
  resumeParseOk : Bool
  sessionIdPresent : Bool
  finalCheck : String
  deriving Repr, DecidableEq

/-- The code after the payment `st.status` block when
`payment_state[status] == paid`: collected validations (which include
the `payment_success` flag) stop the run on any error; then Step 1
parses the resume (`return` on failure), Step 2 stops unless
`payment_session_id` exists and `check_payment_status` returns `paid`,
and only then Step 3 generates. -/
def afterPaidBlock (s : PaymentState) (env : GateEnv) : PaymentState × GateAction :=
  if !(env.inputsValid && env.payment_ok) then (s, .stopRun)
  else if !env.resumeParseOk then (s, .returnNoOp)
  else if !env.sessionIdPresent then (s, .stopRun)
  else if env.finalCheck ≠ "paid" then (s, .stopRun)
  else (s, .generate)

/-- One invocation of the `if submitted` block of `main` on the current
`payment_state`: the `paid` branch proceeds toward generation; the
`pending` branch first checks `time.time() - start_time > 300`, then
polls, moving to `paid` + rerun, or incrementing `retries` and failing
at `retries >= 5`; the `unpaid` branch creates a session and shows the
link (keeping the old `retries`, which `dict.update` does not touch), or
resets on exception.  Every non-`paid` branch ends in stop/rerun/return,
after which the `status != paid` guard returns. -/
def gateStep (s : PaymentState) (env : GateEnv) : PaymentState × GateAction :=
  if s.status = "paid" then
    afterPaidBlock s env
  else if s.status = "pending" then
    if env.now - s.start_time > 300 then
      (unpaidReset, .timeoutError)
    else if env.pollRaises then
      (unpaidReset, .checkFailedError)
    else if env.pollResult = "paid" then
      ({ s with status := "paid" }, .rerunApp)
    else
      if 5 ≤ s.retries + 1 then (unpaidReset, .maxRetriesError)
      else ({ s with retries := s.retries + 1 }, .rerunApp)
  else
    match env.createResult with
    | some url =>
      ({ s with
          status := "pending"
          session_id := some (extract_session_id url)
          start_time := env.now },
        .showPaymentLink url)
    | none => (unpaidReset, .returnNoOp)

/-- Iterated re-invocations of the submitted block under a fixed
environment, keeping the state it leaves behind. -/
def gateIter (s : PaymentState) (env : GateEnv) : Nat → PaymentState
  | 0 => s
  | n + 1 => (gateStep (gateIter s env n) env).1

/-! ### Claims about the ledger operations -/

/-- Claim C1, counterexample: a session whose stored status is `paid` is
overwritten to `unpaid` by a later `check_payment_status` whose provider
response reports `unpaid` — the write is not conditional on the current
status, so `paid` is not write-once. -/
theorem paid_row_overwritten_by_unpaid_poll :
    (check_payment_status [⟨"u1", "cs_1", "paid", 0, none⟩] "cs_1"
        (RetrieveResult.ok "unpaid") 5).1
      = [⟨"u1", "cs_1", "unpaid", 0, some 5⟩]
    ∧ ("unpaid" : String) ≠ "paid" :=
  ⟨rfl, by decide⟩

/-- Claim C1 (amended): the ledger writes of `check_payment_status` and
of a `checkout.session.completed` webhook are unconditional overwrites
keyed only on `session_id`: after either call, every row of the session
carries the provider-reported status, whatever its previous status
(including `paid`) was. -/
theorem ledger_status_writes_are_blind_overwrites (l : Ledger) (sid ps fb : String)
    (now : Nat) (e : StripeEvent)
    (he : e.type = "checkout.session.completed") (hid : e.object_id = some sid) :
    (∀ r ∈ (check_payment_status l sid (RetrieveResult.ok ps) now).1,
      r.session_id = sid → r.status = ps)
    ∧ ∀ l2 ev, verify_webhook l (ConstructEventResult.ok e) now fb = Except.ok (l2, ev) →
        l2.map LedgerRow.status
          = l.map fun r => if r.session_id = sid then e.payment_status else r.status := by
  constructor
  · intro r hr hrs
    simp only [check_payment_status, ledgerUpdateStatus, List.mem_map] at hr
    obtain ⟨r0, _, heq⟩ := hr
    by_cases h0 : r0.session_id = sid
    · rw [← heq]; simp [h0]
    · rw [← heq] at hrs; simp [h0] at hrs
  · intro l2 ev hcall
    simp only [verify_webhook, he, hid, if_pos rfl] at hcall
    have h2 := Except.ok.inj hcall
    have hl2 : l2 = l.map fun r =>
        if r.session_id = sid then
          { r with status := e.payment_status, updated_at := some now,
                   session_id := pyOrFallback (some sid) fb }
        else r := congrArg Prod.fst h2.symm
    rw [hl2, List.map_map]
    clear hcall h2 hl2
    induction l with
    | nil => rfl
    | cons r t ih =>
      by_cases h0 : r.session_id = sid
      · simpa [h0] using ih
      · simpa [h0] using ih

/-- Claim C1, witness: the overwritten row of the counterexample ledger
indeed carries the provider-reported status. -/
theorem ledger_status_writes_are_blind_overwrites_witness :
    ((check_payment_status [⟨"u9", "cs_w", "paid", 0, none⟩] "cs_w"
        (RetrieveResult.ok "unpaid") 6).1.headD ⟨"", "", "", 0, none⟩).status = "unpaid" := by
  have h := ledger_status_writes_are_blind_overwrites
    [⟨"u9", "cs_w", "paid", 0, none⟩] "cs_w" "unpaid" "fb" 6
    ⟨"checkout.session.completed", "unpaid", some "cs_w"⟩ rfl rfl
  exact h.1 _ (by decide) rfl

/-- Claim C3, counterexample: `check_payment_status` on a `pending`
session whose provider response reports `unpaid` stores `unpaid`, not
the `pending` the transition table prescribes; likewise
`no_payment_required` is stored verbatim, not as `paid`. -/
theorem provider_status_stored_verbatim_counterexample :
    (check_payment_status [⟨"u1", "cs_3", "pending", 0, none⟩] "cs_3"
        (RetrieveResult.ok "unpaid") 9)
      = ([⟨"u1", "cs_3", "unpaid", 0, some 9⟩], "unpaid")
    ∧ (check_payment_status [⟨"u1", "cs_3", "pending", 0, none⟩] "cs_3"
        (RetrieveResult.ok "no_payment_required") 9)
      = ([⟨"u1", "cs_3", "no_payment_required", 0, some 9⟩], "no_payment_required")
    ∧ ("unpaid" : String) ≠ "pending" ∧ ("no_payment_required" : String) ≠ "paid" :=
  ⟨rfl, rfl, by decide, by decide⟩

/-- Claim C3 (amended): `check_payment_status` applies no transition
table at all: it stores and returns the provider's `payment_status`
verbatim for every row of the session, and leaves other rows alone. -/
theorem check_payment_status_stores_provider_status (l : Ledger) (sid ps : String)
    (now : Nat) :
    (check_payment_status l sid (RetrieveResult.ok ps) now).2 = ps
    ∧ (check_payment_status l sid (RetrieveResult.ok ps) now).1.map LedgerRow.status
        = l.map fun r => if r.session_id = sid then ps else r.status := by
  refine ⟨rfl, ?_⟩
  induction l with
  | nil => rfl
  | cons r t ih =>
    by_cases h0 : r.session_id = sid
    · simpa [check_payment_status, ledgerUpdateStatus, h0] using ih
    · simpa [check_payment_status, ledgerUpdateStatus, h0] using ih

/-- Claim C9, counterexample: when the provider raises, the ledger is
returned untouched — no row is updated to status `error`, even though
the string `error` is returned to the caller. -/
theorem error_poll_performs_no_ledger_write :
    check_payment_status [⟨"u2", "cs_9", "pending", 1, none⟩] "cs_9"
        (RetrieveResult.stripeError "boom") 7
      = ([⟨"u2", "cs_9", "pending", 1, none⟩], "error")
    ∧ ∀ r ∈ (check_payment_status [⟨"u2", "cs_9", "pending", 1, none⟩] "cs_9"
        (RetrieveResult.stripeError "boom") 7).1, r.status ≠ "error" :=
  ⟨rfl, by decide⟩

/-- Claim C9 (amended): on a provider error `check_payment_status`
returns the string `error` to the caller but performs no ledger write:
the ledger after the call is exactly the ledger before it. -/
theorem check_payment_status_error_returns_without_write (l : Ledger) (sid m : String)
    (now : Nat) :
    check_payment_status l sid (RetrieveResult.stripeError m) now = (l, "error") := rfl

/-- Claim C6: an invalid webhook signature makes `construct_event` raise,
the handler catches it, touches no ledger row, and returns the `None`
rejection instead of applying the event. -/
theorem verify_webhook_bad_signature_no_write (l : Ledger) (m : String) (now : Nat)
    (fb : String) :
    verify_webhook l (ConstructEventResult.sigError m) now fb = Except.ok (l, none) := rfl

/-- Claim C10: a verified webhook whose event type is not
`checkout.session.completed` performs no ledger write and returns the
parsed event to the caller. -/
theorem verify_webhook_other_event_no_write (l : Ledger) (e : StripeEvent) (now : Nat)
    (fb : String) (he : e.type ≠ "checkout.session.completed") :
    verify_webhook l (ConstructEventResult.ok e) now fb = Except.ok (l, some e) := by
  simp [verify_webhook, he]

/-- Claim C10, witness: a `payment_intent.created` event on an empty
ledger is returned with the ledger unchanged. -/
theorem verify_webhook_other_event_no_write_witness :
    verify_webhook [] (ConstructEventResult.ok
        ⟨"payment_intent.created", "unpaid", some "cs_7"⟩) 0 "fb"
      = Except.ok ([], some ⟨"payment_intent.created", "unpaid", some "cs_7"⟩) :=
  verify_webhook_other_event_no_write [] ⟨"payment_intent.created", "unpaid", some "cs_7"⟩
    0 "fb" (by decide)

/-- Claim C7, counterexample: when the Stripe create succeeds but all
ledger-insert attempts fail, `create_payment_session` propagates the
error instead of returning the URL; and on success the inserted row has
status `pending`, not `created`. -/
theorem create_session_ledger_failure_propagates :
    create_payment_session [] "user123" 3
        (List.replicate 3 ⟨CreateOutcome.ok "cs_1" "url1",
          List.replicate 3 (LedgerWriteOutcome.failure "db down")⟩)
      = Except.error "db down"
    ∧ create_payment_session [] "user123" 3
        [⟨CreateOutcome.ok "cs_1" "url1", [LedgerWriteOutcome.ok]⟩]
      = Except.ok ([⟨"user123", "cs_1", "pending", 3, none⟩], some "url1")
    ∧ ("pending" : String) ≠ "created" :=
  ⟨rfl, rfl, by decide⟩

/-- Claim C7 (amended): a successful `create_payment_session` inserts a
row with status `pending` (not `created`) before returning the URL; a
ledger insert that fails all its retry attempts escapes the
`except stripe.error.StripeError` clause, so the call raises instead of
returning the URL. -/
theorem create_session_writes_pending_and_raises_on_ledger_failure (l : Ledger)
    (uid sid url m : String) (now : Nat) :
    create_payment_session l uid now [⟨CreateOutcome.ok sid url, [LedgerWriteOutcome.ok]⟩]
      = Except.ok (l ++ [log_transaction_row uid sid now], some url)
    ∧ (log_transaction_row uid sid now).status = "pending"
    ∧ create_payment_session l uid now
        (List.replicate 3 ⟨CreateOutcome.ok sid url,
          List.replicate 3 (LedgerWriteOutcome.failure m)⟩)
      = Except.error m :=
  ⟨rfl, rfl, rfl⟩

/-- Claim C8, counterexample: a provider error on the first attempt of
`create_payment_session` is caught inside the body and turned into a
`None` result immediately — later attempts that would succeed are never
tried and no error is surfaced; `check_payment_status` likewise returns
the plain string `error` on its single, unretried provider call. -/
theorem provider_error_swallowed_without_retry :
    create_payment_session [] "user123" 0
        [⟨CreateOutcome.stripeError "network", []⟩,
         ⟨CreateOutcome.ok "cs_2" "url2", [LedgerWriteOutcome.ok]⟩,
         ⟨CreateOutcome.ok "cs_2" "url2", [LedgerWriteOutcome.ok]⟩]
      = Except.ok ([], none)
    ∧ check_payment_status [] "cs_2" (RetrieveResult.stripeError "network") 0
      = ([], "error") :=
  ⟨rfl, rfl⟩

/-- Claim C8 (amended): the retry decorators on `create_payment_session`
and `verify_webhook` never fire for provider / signature errors, because
those are caught inside the body and converted to a `None` return before
reaching the retry layer; `check_payment_status` has no retry wrapper at
all; in all three operations the error is swallowed into a sentinel
return instead of being surfaced. -/
theorem provider_errors_caught_before_retry_layer (l : Ledger)
    (uid m sid fb : String) (now : Nat) (rest : List CreateAttemptEnv) :
    create_payment_session l uid now (⟨CreateOutcome.stripeError m, []⟩ :: rest)
      = Except.ok (l, none)
    ∧ check_payment_status l sid (RetrieveResult.stripeError m) now = (l, "error")
    ∧ verify_webhook l (ConstructEventResult.sigError m) now fb = Except.ok (l, none) :=
  ⟨rfl, rfl, rfl⟩

/-! ### Claims about the gate workflow -/

/-- Claim C2: one invocation of the submitted block reaches the
generation step only when the gate state is already `paid`, the
`payment_success` flag (set only after a `paid` verification) holds, and
the final pre-generation `check_payment_status` call returned `paid`;
from any state whose status is not `paid` no path generates. -/
theorem generation_only_after_paid_check (s : PaymentState) (env : GateEnv)
    (h : (gateStep s env).2 = GateAction.generate) :
    s.status = "paid" ∧ env.payment_ok = true ∧ env.finalCheck = "paid" := by
  unfold gateStep afterPaidBlock at h
  repeat' split at h
  all_goals simp_all

/-- Claim C2, witness: a `paid` state with all checks green does reach
the generation step, with all three conclusions holding there. -/
theorem generation_only_after_paid_check_witness :
    (⟨"paid", some "cs_1", 0, 0⟩ : PaymentState).status = "paid"
    ∧ (⟨0, false, "paid", none, true, true, true, true, "paid"⟩ : GateEnv).payment_ok = true
    ∧ (⟨0, false, "paid", none, true, true, true, true, "paid"⟩ : GateEnv).finalCheck = "paid" :=
  generation_only_after_paid_check ⟨"paid", some "cs_1", 0, 0⟩
    ⟨0, false, "paid", none, true, true, true, true, "paid"⟩ rfl

/-- Claim C4: a pending gate state re-invoked at time `now` fails with
the timeout error exactly when `now - start_time` exceeds 300 seconds —
the source's strict `time.time() - start_time > 300` comparison. -/
theorem pending_poll_times_out_iff_over_300 (s : PaymentState) (env : GateEnv)
    (hs : s.status = "pending") :
    (gateStep s env).2 = GateAction.timeoutError ↔ env.now - s.start_time > 300 := by
  unfold gateStep
  rw [hs]
  by_cases ht : env.now - s.start_time > 300
  · simp [ht]
  · by_cases hraise : env.pollRaises
    · simp [ht, hraise]
    · by_cases hp : env.pollResult = "paid"
      · simp [ht, hraise, hp]
      · by_cases hn : 5 ≤ s.retries + 1 <;> simp [ht, hraise, hp, hn]

/-- Claim C4, witness: with `start_time = 0`, a poll at `300.001` hits
the timeout failure and a poll at `299.999` does not. -/
theorem pending_poll_times_out_iff_over_300_witness :
    (gateStep ⟨"pending", some "cs_1", 0, 0⟩
        ⟨(300001 : ℚ) / 1000, false, "unpaid", none, false, true, true, true, "unpaid"⟩).2
      = GateAction.timeoutError
    ∧ ¬ (gateStep ⟨"pending", some "cs_1", 0, 0⟩
        ⟨(299999 : ℚ) / 1000, false, "unpaid", none, false, true, true, true, "unpaid"⟩).2
      = GateAction.timeoutError := by
  constructor
  · exact (pending_poll_times_out_iff_over_300 ⟨"pending", some "cs_1", 0, 0⟩
      ⟨(300001 : ℚ) / 1000, false, "unpaid", none, false, true, true, true, "unpaid"⟩
      rfl).mpr (by norm_num)
  · intro hc
    have h300 := (pending_poll_times_out_iff_over_300 ⟨"pending", some "cs_1", 0, 0⟩
      ⟨(299999 : ℚ) / 1000, false, "unpaid", none, false, true, true, true, "unpaid"⟩
      rfl).mp hc
    norm_num at h300

/-- One in-budget, non-raising, non-paid poll of a pending state below
the retry ceiling: the state keeps everything but the incremented
counter and the invocation ends in `st.rerun`. -/
theorem gateStep_pending_nonpaid_below_ceiling (s : PaymentState) (env : GateEnv)
    (hs : s.status = "pending") (ht : ¬ env.now - s.start_time > 300)
    (hraise : env.pollRaises = false) (hp : env.pollResult ≠ "paid")
    (hlt : s.retries + 1 < 5) :
    gateStep s env = ({ s with retries := s.retries + 1 }, GateAction.rerunApp) := by
  unfold gateStep
  rw [hs]
  simp [ht, hraise, hp, Nat.not_le.mpr hlt]

/-- The same poll at the retry ceiling: the state is reset and the
invocation ends in the max-retries error. -/
theorem gateStep_pending_nonpaid_at_ceiling (s : PaymentState) (env : GateEnv)
    (hs : s.status = "pending") (ht : ¬ env.now - s.start_time > 300)
    (hraise : env.pollRaises = false) (hp : env.pollResult ≠ "paid")
    (hge : 5 ≤ s.retries + 1) :
    gateStep s env = (unpaidReset, GateAction.maxRetriesError) := by
  unfold gateStep
  rw [hs]
  simp [ht, hraise, hp, hge]

/-- Claim C5: starting from a pending state with `retries = 0`, four
in-budget non-paid polls leave the gate pending with `retries = 4` (the
fourth still ends in a rerun), and the fifth non-paid poll ends in the
max-retries failure. -/
theorem fifth_nonpaid_poll_hits_retry_ceiling (s : PaymentState) (env : GateEnv)
    (hs : s.status = "pending") (hr : s.retries = 0)
    (ht : ¬ env.now - s.start_time > 300)
    (hraise : env.pollRaises = false) (hp : env.pollResult ≠ "paid") :
    (gateIter s env 4).status = "pending" ∧ (gateIter s env 4).retries = 4
    ∧ (gateStep (gateIter s env 3) env).2 = GateAction.rerunApp
    ∧ (gateStep (gateIter s env 4) env).2 = GateAction.maxRetriesError := by
  have e1 : gateIter s env 1 = { s with retries := 1 } := by
    show (gateStep (gateIter s env 0) env).1 = _
    rw [show gateIter s env 0 = s from rfl,
      gateStep_pending_nonpaid_below_ceiling s env hs ht hraise hp (by omega), hr]
  have e2 : gateIter s env 2 = { s with retries := 2 } := by
    show (gateStep (gateIter s env 1) env).1 = _
    rw [e1, gateStep_pending_nonpaid_below_ceiling { s with retries := 1 } env hs ht
      hraise hp (show 1 + 1 < 5 by decide)]
  have e3 : gateIter s env 3 = { s with retries := 3 } := by
    show (gateStep (gateIter s env 2) env).1 = _
    rw [e2, gateStep_pending_nonpaid_below_ceiling { s with retries := 2 } env hs ht
      hraise hp (show 2 + 1 < 5 by decide)]
  have e4 : gateIter s env 4 = { s with retries := 4 } := by
    show (gateStep (gateIter s env 3) env).1 = _
    rw [e3, gateStep_pending_nonpaid_below_ceiling { s with retries := 3 } env hs ht
      hraise hp (show 3 + 1 < 5 by decide)]
  refine ⟨by rw [e4]; exact hs, by rw [e4], ?_, ?_⟩
  · rw [e3, gateStep_pending_nonpaid_below_ceiling { s with retries := 3 } env hs ht
      hraise hp (show 3 + 1 < 5 by decide)]
  · rw [e4, gateStep_pending_nonpaid_at_ceiling { s with retries := 4 } env hs ht
      hraise hp (show 5 ≤ 4 + 1 by decide)]

/-- Claim C5, witness: a fresh pending state polled five times with
`unpaid`, well inside the time budget, behaves exactly as claimed. -/
theorem fifth_nonpaid_poll_hits_retry_ceiling_witness :
    (gateIter ⟨"pending", some "cs_5", 0, 0⟩
        ⟨10, false, "unpaid", none, false, true, true, true, "unpaid"⟩ 4).status = "pending"
    ∧ (gateIter ⟨"pending", some "cs_5", 0, 0⟩
        ⟨10, false, "unpaid", none, false, true, true, true, "unpaid"⟩ 4).retries = 4
    ∧ (gateStep (gateIter ⟨"pending", some "cs_5", 0, 0⟩
        ⟨10, false, "unpaid", none, false, true, true, true, "unpaid"⟩ 3)
        ⟨10, false, "unpaid", none, false, true, true, true, "unpaid"⟩).2
      = GateAction.rerunApp
    ∧ (gateStep (gateIter ⟨"pending", some "cs_5", 0, 0⟩
        ⟨10, false, "unpaid", none, false, true, true, true, "unpaid"⟩ 4)
        ⟨10, false, "unpaid", none, false, true, true, true, "unpaid"⟩).2
      = GateAction.maxRetriesError :=
  fifth_nonpaid_poll_hits_retry_ceiling ⟨"pending", some "cs_5", 0, 0⟩
    ⟨10, false, "unpaid", none, false, true, true, true, "unpaid"⟩
    rfl rfl (by norm_num) rfl (by decide)

end CoverLetterGen
